import Mathlib

/-!
# Verification of the auto-stock pattern-discovery core

A shallow embedding of the pattern-discovery engine of the repository:
`src/discovery/profit_cases.py`, `src/discovery/pattern_finder.py` and
`src/discovery/validated_patterns.py`, together with theorems settling the
behavioural claims made by the specification about that engine.

Modelling conventions:
* A dataframe row (`Row`) carries its date (as an abstract day number), the
  `Close` price (required by the feature-frame contract to be present and
  numeric, since the Python code indexes `df['Close']` unconditionally), and
  an association list of indicator columns.  An indicator column that is
  absent from the frame is absent from the list; a present column whose value
  is NaN (pandas missing value) is modelled as `none`.
* Python floats are modelled as rationals (`ℚ`); all arithmetic performed by
  the engine is field arithmetic, so `ℚ` mirrors it exactly up to rounding.
* Python loops that accumulate counts/lists are rendered as `filter`/`map`
  over the corresponding index ranges; `for i in range(len(df) - h)` pairs
  row `i` with row `i + h`, which is exactly `df.zip (df.drop h)`.
* The one fallible operation reached by the claims (`discovery_cases[-1]` on
  a possibly-empty list in `PatternFinder.find_patterns`) is modelled with
  `Option`: `none` is an uncaught `IndexError`.
-/

namespace AutoStock

/-- One bar of the feature frame: date, Close price, and the indicator
columns.  `cols` maps an indicator name to `some v` (defined value) or
`none` (NaN during a warm-up window); a name missing from `cols` models a
column absent from the frame altogether. -/
structure Row where
  date : ℕ
  close : ℚ
  cols : List (String × Option ℚ)
  deriving DecidableEq

/-- Look an indicator up in a row: `none` = column absent,
`some none` = column present but NaN, `some (some v)` = defined value. -/
def Row.col (r : Row) (ind : String) : Option (Option ℚ) :=
  r.cols.lookup ind

/-- `PatternDefinition` (pattern_finder.py lines 16-34): a named rule mapping
indicator names to inclusive numeric ranges. -/
structure PatternDefinition where
  name : String
  category : String
  description : String
  conditions : List (String × ℚ × ℚ)
  deriving DecidableEq

/-- `PatternDefinition.check` (pattern_finder.py lines 24-34): a row matches
iff every listed indicator is present, non-NaN, and inside its range. -/
def PatternDefinition.check (p : PatternDefinition) (row : Row) : Bool :=
  p.conditions.all fun c =>
    match row.col c.1 with
    | none => false
    | some none => false
    | some (some v) => decide (c.2.1 ≤ v ∧ v ≤ c.2.2)

/-- `ProfitCase` (profit_cases.py lines 9-17). -/
structure ProfitCase where
  date_idx : ℕ
  date : ℕ
  entry_price : ℚ
  exit_price : ℚ
  return_pct : ℚ
  holding_days : ℕ
  deriving DecidableEq

/-- Forward return in percent: `(exit_price / entry_price - 1) * 100`
(profit_cases.py line 76, pattern_finder.py lines 670 and 745). -/
def fwd_return (entry_price exit_price : ℚ) : ℚ :=
  (exit_price / entry_price - 1) * 100

/-- `ProfitCaseFinder.find_profit_cases` (profit_cases.py lines 53-88):
for every index `i` with `i + holding_period < len df`, emit a `ProfitCase`
iff the forward return from `close[i]` to `close[i + holding_period]` is at
least `min_return`.  The loop `for i in range(len(df) - holding_period)`
pairs row `i` with row `i + holding_period`, i.e. walks
`(df.zip (df.drop holding_period)).enum`. -/
def find_profit_cases (df : List Row) (holding_period : ℕ)
    (min_return : ℚ) : List ProfitCase :=
  ((df.zip (df.drop holding_period)).enum.filter fun ic =>
      decide (min_return ≤ fwd_return ic.2.1.close ic.2.2.close)).map fun ic =>
    { date_idx := ic.1
      date := ic.2.1.date
      entry_price := ic.2.1.close
      exit_price := ic.2.2.close
      return_pct := fwd_return ic.2.1.close ic.2.2.close
      holding_days := holding_period }

/-- `PatternValidator._calculate_baseline` (pattern_finder.py lines 662-676):
fraction of horizon-valid days of the segment whose forward return clears
`min_return`; `0` when there is no horizon-valid day. -/
def calculate_baseline (holding_period : ℕ) (min_return : ℚ)
    (df : List Row) : ℚ :=
  let pairs := df.zip (df.drop holding_period)
  let total_count := pairs.length
  let profit_count := (pairs.filter fun rr =>
    decide (min_return ≤ fwd_return rr.1.close rr.2.close)).length
  if 0 < total_count then (profit_count : ℚ) / (total_count : ℚ) else 0

/-- The statistics dictionary returned by
`PatternValidator._check_pattern_returns` (pattern_finder.py lines 754-759). -/
structure CheckStats where
  pattern_days : ℕ
  profit_days : ℕ
  win_rate : ℚ
  avg_return : ℚ
  deriving DecidableEq

/-- `PatternValidator._check_pattern_returns` (pattern_finder.py lines
726-759): over every horizon-valid index of the segment, count the rows
matching the pattern, their forward returns, and how many of those returns
clear `min_return`; win rate is `0` on zero occurrences and the average
return is `0` on an empty return list. -/
def check_pattern_returns (holding_period : ℕ) (min_return : ℚ)
    (df : List Row) (p : PatternDefinition) : CheckStats :=
  let matched := (df.zip (df.drop holding_period)).filter fun rr => p.check rr.1
  let returns := matched.map fun rr => fwd_return rr.1.close rr.2.close
  let pattern_days := matched.length
  let profit_days := (returns.filter fun r => decide (min_return ≤ r)).length
  { pattern_days := pattern_days
    profit_days := profit_days
    win_rate := if 0 < pattern_days then (profit_days : ℚ) / (pattern_days : ℚ) else 0
    avg_return := if returns.length ≠ 0 then returns.sum / (returns.length : ℚ) else 0 }

/-- `PatternStats` (pattern_finder.py lines 37-54): the frequency-validation
record of one pattern. -/
structure PatternStats where
  name : String
  discovery_count : ℕ
  discovery_total_days : ℕ
  discovery_frequency : ℚ
  validation_count : ℕ
  validation_total_days : ℕ
  validation_frequency : ℚ
  frequency_ratio : ℚ
  passed : Bool
  deriving DecidableEq

/-- The `PatternStats` computed for one pattern inside
`PatternFinder._validate_frequency` (pattern_finder.py lines 506-546):
`df_discovery = df.iloc[:discovery_end_idx + 1]`,
`df_validation = df.iloc[discovery_end_idx + 1:]`; the two counting loops
walk *every* row of each segment; frequencies are per-cent rates guarded on
non-empty segments; `freq_ratio` is guarded on a positive discovery
frequency; the pass flag conjoins the three thresholds of lines 530-534. -/
def freq_stats_of (df : List Row) (discovery_end_idx : ℕ)
    (p : PatternDefinition) : PatternStats :=
  let df_discovery := df.take (discovery_end_idx + 1)
  let df_validation := df.drop (discovery_end_idx + 1)
  let discovery_count := (df_discovery.filter fun r => p.check r).length
  let validation_count := (df_validation.filter fun r => p.check r).length
  let discovery_freq :=
    if 0 < df_discovery.length then
      (discovery_count : ℚ) / (df_discovery.length : ℚ) * 100 else 0
  let validation_freq :=
    if 0 < df_validation.length then
      (validation_count : ℚ) / (df_validation.length : ℚ) * 100 else 0
  let freq_ratio := if 0 < discovery_freq then validation_freq / discovery_freq else 0
  { name := p.name
    discovery_count := discovery_count
    discovery_total_days := df_discovery.length
    discovery_frequency := discovery_freq
    validation_count := validation_count
    validation_total_days := df_validation.length
    validation_frequency := validation_freq
    frequency_ratio := freq_ratio
    passed := decide (10 ≤ discovery_count) && decide (5 ≤ validation_count) &&
      decide ((0.3 : ℚ) ≤ freq_ratio) }

/-- `PatternFinder._validate_frequency` (pattern_finder.py lines 494-569):
returns the patterns whose stats passed, and the stats of every pattern
(the single Python loop building both lists is rendered as a
`filter`/`map` pair over the same per-pattern computation). -/
def validate_frequency (df : List Row) (patterns : List PatternDefinition)
    (discovery_end_idx : ℕ) : List PatternDefinition × List PatternStats :=
  (patterns.filter fun p => (freq_stats_of df discovery_end_idx p).passed,
   patterns.map fun p => freq_stats_of df discovery_end_idx p)

/-- `PatternPerformance` (pattern_finder.py lines 572-594): the
profitability-validation record.  Note the single `baseline_win_rate`
field. -/
structure PatternPerformance where
  name : String
  train_pattern_days : ℕ
  train_profit_days : ℕ
  train_win_rate : ℚ
  train_avg_return : ℚ
  test_pattern_days : ℕ
  test_profit_days : ℕ
  test_win_rate : ℚ
  test_avg_return : ℚ
  baseline_win_rate : ℚ
  lift_train : ℚ
  lift_test : ℚ
  validated : Bool
  deriving DecidableEq

/-- Lift of a win rate over a baseline (pattern_finder.py lines 692-693):
`win_rate / baseline` when the baseline is positive, else `0`. -/
def liftOf (win_rate baseline : ℚ) : ℚ :=
  if 0 < baseline then win_rate / baseline else 0

/-- `PatternValidator._validate_single_pattern` (pattern_finder.py lines
678-724): Train/Test statistics, the two lifts, the six-way validation
conjunction of lines 701-708, and the assembled record (note
`baseline_win_rate := baseline_train` at line 720). -/
def validate_single_pattern (holding_period : ℕ) (min_return : ℚ)
    (df_train df_test : List Row) (p : PatternDefinition)
    (baseline_train baseline_test : ℚ) : PatternPerformance :=
  let train_stats := check_pattern_returns holding_period min_return df_train p
  let test_stats := check_pattern_returns holding_period min_return df_test p
  let lift_train := liftOf train_stats.win_rate baseline_train
  let lift_test := liftOf test_stats.win_rate baseline_test
  { name := p.name
    train_pattern_days := train_stats.pattern_days
    train_profit_days := train_stats.profit_days
    train_win_rate := train_stats.win_rate
    train_avg_return := train_stats.avg_return
    test_pattern_days := test_stats.pattern_days
    test_profit_days := test_stats.profit_days
    test_win_rate := test_stats.win_rate
    test_avg_return := test_stats.avg_return
    baseline_win_rate := baseline_train
    lift_train := lift_train
    lift_test := lift_test
    validated :=
      decide (20 ≤ train_stats.pattern_days) &&
      decide (10 ≤ test_stats.pattern_days) &&
      decide (baseline_train + 0.05 < train_stats.win_rate) &&
      decide (baseline_test + 0.05 < test_stats.win_rate) &&
      decide ((1.2 : ℚ) ≤ lift_train) &&
      decide ((1.2 : ℚ) ≤ lift_test) }

/-- `int(len(df) * ratio)` (pattern_finder.py lines 108 and 629): Python
`int()` truncates toward zero; for the non-negative products arising here
that is the floor, and `Int.toNat` keeps the result a list index. -/
def split_index (n : ℕ) (ratio : ℚ) : ℕ :=
  (⌊(n : ℚ) * ratio⌋).toNat

/-- The Train segment of `PatternValidator.validate_patterns`
(pattern_finder.py lines 629-630): the first `int(len(df) * train_ratio)`
rows. -/
def train_segment (train_ratio : ℚ) (df : List Row) : List Row :=
  df.take (split_index df.length train_ratio)

/-- The Test segment of `PatternValidator.validate_patterns`
(pattern_finder.py lines 629-631): the remaining rows. -/
def test_segment (train_ratio : ℚ) (df : List Row) : List Row :=
  df.drop (split_index df.length train_ratio)

/-- `PatternValidator.validate_patterns` (pattern_finder.py lines 612-660):
Train/Test calendar split at `int(len(df) * train_ratio)`, per-segment
baselines, then per-pattern validation; the loop building the two result
lists is rendered as a `filter`/`map` pair. -/
def validate_patterns (holding_period : ℕ) (min_return train_ratio : ℚ)
    (df : List Row) (patterns : List PatternDefinition) :
    List PatternDefinition × List PatternPerformance :=
  let df_train := train_segment train_ratio df
  let df_test := test_segment train_ratio df
  let baseline_train := calculate_baseline holding_period min_return df_train
  let baseline_test := calculate_baseline holding_period min_return df_test
  (patterns.filter fun p =>
     (validate_single_pattern holding_period min_return df_train df_test p
       baseline_train baseline_test).validated,
   patterns.map fun p =>
     validate_single_pattern holding_period min_return df_train df_test p
       baseline_train baseline_test)

/-- Minimum of a list of rationals (`np.min`); `0` on the empty list, which
`_analyze_features` never passes (it requires at least 10 samples). -/
def list_min : List ℚ → ℚ
  | [] => 0
  | x :: xs => xs.foldl min x

/-- Maximum of a list of rationals (`np.max`); `0` on the empty list. -/
def list_max : List ℚ → ℚ
  | [] => 0
  | x :: xs => xs.foldl max x

/-- `np.percentile(arr, q)` with numpy's default linear interpolation:
with the samples sorted ascending, the value at fractional position
`q / 100 * (n - 1)`, linearly interpolated between its two neighbours. -/
def np_percentile (vs : List ℚ) (q : ℚ) : ℚ :=
  let sorted := vs.mergeSort fun a b => decide (a ≤ b)
  let pos := q / 100 * ((vs.length : ℚ) - 1)
  let lo := (⌊pos⌋).toNat
  let frac := pos - (lo : ℚ)
  sorted.getD lo 0 + frac * (sorted.getD (lo + 1) 0 - sorted.getD lo 0)

/-- The per-indicator statistics record built by
`PatternFinder._analyze_features` (pattern_finder.py lines 176-186).
The source stores `np.std(arr)` in its `std` slot; no consumer of the
stats table ever reads that slot, and a square root leaves `ℚ`, so the
model stores its square (the population variance) instead. -/
structure FeatureStat where
  mean : ℚ
  std_sq : ℚ
  min : ℚ
  max : ℚ
  p10 : ℚ
  p25 : ℚ
  p50 : ℚ
  p75 : ℚ
  p90 : ℚ
  count : ℕ
  deriving DecidableEq

/-- Assemble a `FeatureStat` from a non-empty sample list
(pattern_finder.py lines 175-186). -/
def mkFeatureStat (vs : List ℚ) : FeatureStat :=
  let mean := vs.sum / (vs.length : ℚ)
  { mean := mean
    std_sq := (vs.map fun x => (x - mean) ^ 2).sum / (vs.length : ℚ)
    min := list_min vs
    max := list_max vs
    p10 := np_percentile vs 10
    p25 := np_percentile vs 25
    p50 := np_percentile vs 50
    p75 := np_percentile vs 75
    p90 := np_percentile vs 90
    count := vs.length }

/-- The fixed indicator list of `PatternFinder._analyze_features`
(pattern_finder.py lines 150-154). -/
def analysis_indicators : List String :=
  ["rsi", "macd_hist", "bb_position", "momentum_10", "momentum_20",
   "volume_ratio", "volatility_20", "returns", "range_position",
   "price_vs_ma_short", "price_vs_ma_medium", "price_vs_ma_long"]

/-- The values of one indicator at the discovery profit-case dates
(pattern_finder.py lines 159-167): cases with `date_idx < 1` are skipped,
and a value is collected only when the column is present and non-NaN. -/
def feature_values_of (df : List Row) (cases : List ProfitCase)
    (ind : String) : List ℚ :=
  cases.filterMap fun c =>
    if c.date_idx < 1 then none
    else
      match df[c.date_idx]? with
      | some row =>
        match row.col ind with
        | some (some v) => some v
        | _ => none
      | none => none

/-- `PatternFinder._analyze_features` (pattern_finder.py lines 145-189):
per-indicator statistics over the discovery-case dates; indicators with
fewer than 10 collected samples are dropped.  The Python dicts iterate in
insertion order; the model builds the association list in the fixed
indicator order — keys are unique and every downstream access is by key,
so the difference is unobservable. -/
def analyze_features (df : List Row) (cases : List ProfitCase) :
    List (String × FeatureStat) :=
  analysis_indicators.filterMap fun ind =>
    let values := feature_values_of df cases ind
    if values.length < 10 then none
    else some (ind, mkFeatureStat values)

/-- `PatternFinder._define_patterns` (pattern_finder.py lines 191-492): the
fixed rule catalog.  Each single-indicator block is guarded by a
membership test on the stats table; the five composite patterns of lines
425-477 are emitted unconditionally; the final composite (lines 480-490)
is guarded on `volatility_20`.  The Python method also receives the
dataframe and the case list but never uses them, so the model omits those
parameters. -/
def define_patterns (feature_stats : List (String × FeatureStat)) :
    List PatternDefinition :=
  (if (feature_stats.lookup "rsi").isSome then
    [{ name := "RSI_Oversold_30", category := "모멘텀",
       description := "RSI 30 이하", conditions := [("rsi", 0, 30)] },
     { name := "RSI_Oversold_35", category := "모멘텀",
       description := "RSI 35 이하", conditions := [("rsi", 0, 35)] },
     { name := "RSI_Oversold_40", category := "모멘텀",
       description := "RSI 40 이하", conditions := [("rsi", 0, 40)] },
     { name := "RSI_Neutral_Low", category := "모멘텀",
       description := "RSI 40-50", conditions := [("rsi", 40, 50)] },
     { name := "RSI_Neutral_High", category := "모멘텀",
       description := "RSI 50-60", conditions := [("rsi", 50, 60)] }]
   else []) ++
  (if (feature_stats.lookup "momentum_10").isSome then
    [{ name := "Momentum10_VeryNegative", category := "모멘텀",
       description := "10일 모멘텀 -10% 이하",
       conditions := [("momentum_10", -100, -10)] },
     { name := "Momentum10_Negative", category := "모멘텀",
       description := "10일 모멘텀 -5% ~ -10%",
       conditions := [("momentum_10", -10, -5)] },
     { name := "Momentum10_SlightNegative", category := "모멘텀",
       description := "10일 모멘텀 -5% ~ 0%",
       conditions := [("momentum_10", -5, 0)] }]
   else []) ++
  (if (feature_stats.lookup "momentum_20").isSome then
    [{ name := "Momentum20_VeryNegative", category := "모멘텀",
       description := "20일 모멘텀 -15% 이하",
       conditions := [("momentum_20", -100, -15)] },
     { name := "Momentum20_Negative", category := "모멘텀",
       description := "20일 모멘텀 -10% ~ -15%",
       conditions := [("momentum_20", -15, -10)] },
     { name := "Momentum20_SlightNegative", category := "모멘텀",
       description := "20일 모멘텀 -10% ~ 0%",
       conditions := [("momentum_20", -10, 0)] }]
   else []) ++
  (if (feature_stats.lookup "bb_position").isSome then
    [{ name := "BB_BelowLower", category := "변동성",
       description := "볼린저밴드 하단 돌파 (position < 0)",
       conditions := [("bb_position", -10, 0)] },
     { name := "BB_NearLower", category := "변동성",
       description := "볼린저밴드 하단 근처 (0-0.2)",
       conditions := [("bb_position", 0, 0.2)] },
     { name := "BB_LowerHalf", category := "변동성",
       description := "볼린저밴드 하단 절반 (0.2-0.5)",
       conditions := [("bb_position", 0.2, 0.5)] },
     { name := "BB_Middle", category := "변동성",
       description := "볼린저밴드 중간 (0.4-0.6)",
       conditions := [("bb_position", 0.4, 0.6)] }]
   else []) ++
  (if (feature_stats.lookup "price_vs_ma_short").isSome then
    [{ name := "Price_Below_MA20_5pct", category := "추세",
       description := "20일 MA 대비 -5% 이상 하락",
       conditions := [("price_vs_ma_short", -100, -5)] },
     { name := "Price_Below_MA20_2pct", category := "추세",
       description := "20일 MA 대비 -2% ~ -5%",
       conditions := [("price_vs_ma_short", -5, -2)] },
     { name := "Price_Near_MA20", category := "추세",
       description := "20일 MA 근처 (-2% ~ +2%)",
       conditions := [("price_vs_ma_short", -2, 2)] }]
   else []) ++
  (if (feature_stats.lookup "price_vs_ma_medium").isSome then
    [{ name := "Price_Below_MA50_10pct", category := "추세",
       description := "50일 MA 대비 -10% 이상 하락",
       conditions := [("price_vs_ma_medium", -100, -10)] },
     { name := "Price_Below_MA50_5pct", category := "추세",
       description := "50일 MA 대비 -5% ~ -10%",
       conditions := [("price_vs_ma_medium", -10, -5)] },
     { name := "Price_Near_MA50", category := "추세",
       description := "50일 MA 근처 (-5% ~ +2%)",
       conditions := [("price_vs_ma_medium", -5, 2)] }]
   else []) ++
  (if (feature_stats.lookup "volume_ratio").isSome then
    [{ name := "Volume_Spike", category := "거래량",
       description := "거래량 2배 이상 급증",
       conditions := [("volume_ratio", 2, 100)] },
     { name := "Volume_High", category := "거래량",
       description := "거래량 1.5배 이상",
       conditions := [("volume_ratio", 1.5, 2)] },
     { name := "Volume_Normal", category := "거래량",
       description := "거래량 0.8-1.2배",
       conditions := [("volume_ratio", 0.8, 1.2)] }]
   else []) ++
  (match feature_stats.lookup "volatility_20" with
   | some s =>
     [{ name := "Volatility_High", category := "변동성",
        description := "높은 변동성 (상위 25%)",
        conditions := [("volatility_20", s.p75, s.max * 2)] },
      { name := "Volatility_Medium", category := "변동성",
        description := "중간 변동성",
        conditions := [("volatility_20", s.p25, s.p75)] },
      { name := "Volatility_Low", category := "변동성",
        description := "낮은 변동성 (하위 25%)",
        conditions := [("volatility_20", 0, s.p25)] }]
   | none => []) ++
  [{ name := "Combo_Oversold_Momentum", category := "복합",
     description := "RSI < 40 AND 10일 모멘텀 < -5%",
     conditions := [("rsi", 0, 40), ("momentum_10", -100, -5)] },
   { name := "Combo_BB_RSI_Oversold", category := "복합",
     description := "BB 하단 근처 AND RSI < 40",
     conditions := [("bb_position", -10, 0.3), ("rsi", 0, 40)] },
   { name := "Combo_Below_MA_Volume", category := "복합",
     description := "20일 MA -3% 이상 하회 AND 거래량 1.3배+",
     conditions := [("price_vs_ma_short", -100, -3), ("volume_ratio", 1.3, 100)] },
   { name := "Combo_Strong_Dip", category := "복합",
     description := "20일 모멘텀 < -10% AND BB 하단",
     conditions := [("momentum_20", -100, -10), ("bb_position", -10, 0.3)] },
   { name := "Combo_Mild_Pullback", category := "복합",
     description := "10일 모멘텀 -3%~0% AND RSI 40-55",
     conditions := [("momentum_10", -3, 0), ("rsi", 40, 55)] }] ++
  (match feature_stats.lookup "volatility_20" with
   | some s =>
     [{ name := "Combo_Deep_Dip_HighVol", category := "복합",
        description := "20일 모멘텀 < -15% AND 높은 변동성",
        conditions := [("momentum_20", -100, -15), ("volatility_20", s.p50, s.max * 2)] }]
   | none => [])

/-- The per-pattern summary embedded into the pipeline info dictionary by
`run_full_pipeline` (pattern_finder.py lines 850-859). -/
structure PerfSummary where
  name : String
  train_win_rate : ℚ
  test_win_rate : ℚ
  lift_test : ℚ
  validated : Bool
  deriving DecidableEq

/-- The `profit_validation` entry merged into the info dictionary by
`run_full_pipeline` (pattern_finder.py lines 847-860). -/
structure ProfitValidationInfo where
  input_patterns : ℕ
  validated_patterns : ℕ
  performances : List PerfSummary
  deriving DecidableEq

/-- The info dictionary assembled by `PatternFinder.find_patterns`
(pattern_finder.py lines 134-141), with the optional `profit_validation`
entry `run_full_pipeline` may add later. -/
structure PipelineInfo where
  total_cases : ℕ
  discovery_cases : ℕ
  discovery_end_date : ℕ
  patterns_defined : ℕ
  patterns_passed : ℕ
  pattern_stats : List PatternStats
  profit_validation : Option ProfitValidationInfo
  deriving DecidableEq

/-- `PatternFinder.find_patterns` (pattern_finder.py lines 85-143): find the
profit cases, split off the discovery prefix, read the last discovery
case's date (line 112 `discovery_cases[-1]` — an uncaught `IndexError`,
modelled as `none`, when the discovery prefix is empty), analyse features,
define patterns and frequency-validate them. -/
def find_patterns (holding_period : ℕ) (min_return discovery_ratio : ℚ)
    (df : List Row) : Option (List PatternDefinition × PipelineInfo) :=
  let all_cases := find_profit_cases df holding_period min_return
  let n_cases := all_cases.length
  let split_idx := split_index n_cases discovery_ratio
  let discovery_cases := all_cases.take split_idx
  match discovery_cases.getLast? with
  | none => none
  | some last =>
    let feature_stats := analyze_features df discovery_cases
    let patterns := define_patterns feature_stats
    let pv := validate_frequency df patterns last.date_idx
    some (pv.1,
      { total_cases := n_cases
        discovery_cases := discovery_cases.length
        discovery_end_date := last.date
        patterns_defined := patterns.length
        patterns_passed := pv.1.length
        pattern_stats := pv.2
        profit_validation := none })

/-- `run_full_pipeline` (pattern_finder.py lines 815-862): pattern
discovery with the `PatternFinder` defaults (`discovery_ratio = 0.67`),
early return on an empty frequency-validated list, then profitability
validation with the `PatternValidator` defaults (`train_ratio = 0.7`) and
the info-dictionary merge. -/
def run_full_pipeline (df : List Row) (holding_period : ℕ)
    (min_return : ℚ) : Option (List PatternDefinition × PipelineInfo) :=
  match find_patterns holding_period min_return 0.67 df with
  | none => none
  | some (patterns_freq_validated, discovery_info) =>
    if patterns_freq_validated.isEmpty then some ([], discovery_info)
    else
      let fp := validate_patterns holding_period min_return 0.7 df
        patterns_freq_validated
      some (fp.1,
        { discovery_info with
          profit_validation := some
            { input_patterns := patterns_freq_validated.length
              validated_patterns := fp.1.length
              performances := fp.2.map fun p =>
                { name := p.name
                  train_win_rate := p.train_win_rate
                  test_win_rate := p.test_win_rate
                  lift_test := p.lift_test
                  validated := p.validated } } })

/-- `ValidatedPattern` (validated_patterns.py lines 12-54): a frozen
catalog record — rule fields plus the stored performance numbers. -/
structure ValidatedPattern where
  name : String
  category : String
  description : String
  conditions : List (String × ℚ × ℚ)
  train_occurrences : ℕ
  train_win_rate : ℚ
  train_avg_return : ℚ
  test_occurrences : ℕ
  test_win_rate : ℚ
  test_avg_return : ℚ
  lift : ℚ
  deriving DecidableEq

/-- `ValidatedPattern.check` (validated_patterns.py lines 29-39): identical
row-matching logic to `PatternDefinition.check`. -/
def ValidatedPattern.check (p : ValidatedPattern) (row : Row) : Bool :=
  p.conditions.all fun c =>
    match row.col c.1 with
    | none => false
    | some none => false
    | some (some v) => decide (c.2.1 ≤ v ∧ v ≤ c.2.2)

/-- `VALIDATED_PATTERNS` (validated_patterns.py lines 58-280): the frozen
catalog of 14 records. -/
def VALIDATED_PATTERNS : List ValidatedPattern :=
  [{ name := "Combo_Strong_Dip", category := "복합",
     description := "20일 모멘텀 < -10% AND BB 하단",
     conditions := [("momentum_20", -100, -10), ("bb_position", -10, 0.3)],
     train_occurrences := 46, train_win_rate := 0.370, train_avg_return := 9.5,
     test_occurrences := 11, test_win_rate := 1.000, test_avg_return := 17.6,
     lift := 2.84 },
   { name := "Momentum20_Negative", category := "모멘텀",
     description := "20일 모멘텀 -10% ~ -15%",
     conditions := [("momentum_20", -15, -10)],
     train_occurrences := 41, train_win_rate := 0.268, train_avg_return := 5.7,
     test_occurrences := 13, test_win_rate := 0.923, test_avg_return := 16.6,
     lift := 2.62 },
   { name := "RSI_Oversold_35", category := "모멘텀",
     description := "RSI 35 이하",
     conditions := [("rsi", 0, 35)],
     train_occurrences := 68, train_win_rate := 0.368, train_avg_return := 7.3,
     test_occurrences := 23, test_win_rate := 0.739, test_avg_return := 15.2,
     lift := 2.10 },
   { name := "BB_BelowLower", category := "변동성",
     description := "볼린저밴드 하단 돌파 (position < 0)",
     conditions := [("bb_position", -10, 0)],
     train_occurrences := 71, train_win_rate := 0.352, train_avg_return := 7.7,
     test_occurrences := 23, test_win_rate := 0.739, test_avg_return := 14.7,
     lift := 2.10 },
   { name := "Price_Below_MA20_5pct", category := "추세",
     description := "20일 MA 대비 -5% 이상 하락",
     conditions := [("price_vs_ma_short", -100, -5)],
     train_occurrences := 93, train_win_rate := 0.430, train_avg_return := 8.9,
     test_occurrences := 23, test_win_rate := 0.739, test_avg_return := 15.3,
     lift := 2.10 },
   { name := "RSI_Oversold_40", category := "모멘텀",
     description := "RSI 40 이하",
     conditions := [("rsi", 0, 40)],
     train_occurrences := 177, train_win_rate := 0.305, train_avg_return := 6.3,
     test_occurrences := 60, test_win_rate := 0.733, test_avg_return := 13.8,
     lift := 2.08 },
   { name := "Combo_BB_RSI_Oversold", category := "복합",
     description := "BB 하단 근처 AND RSI < 40",
     conditions := [("bb_position", -10, 0.3), ("rsi", 0, 40)],
     train_occurrences := 171, train_win_rate := 0.304, train_avg_return := 6.3,
     test_occurrences := 59, test_win_rate := 0.729, test_avg_return := 13.9,
     lift := 2.07 },
   { name := "Momentum10_Negative", category := "모멘텀",
     description := "10일 모멘텀 -5% ~ -10%",
     conditions := [("momentum_10", -10, -5)],
     train_occurrences := 134, train_win_rate := 0.313, train_avg_return := 5.0,
     test_occurrences := 41, test_win_rate := 0.683, test_avg_return := 13.1,
     lift := 1.94 },
   { name := "Combo_Oversold_Momentum", category := "복합",
     description := "RSI < 40 AND 10일 모멘텀 < -5%",
     conditions := [("rsi", 0, 40), ("momentum_10", -100, -5)],
     train_occurrences := 115, train_win_rate := 0.374, train_avg_return := 8.0,
     test_occurrences := 35, test_win_rate := 0.657, test_avg_return := 13.8,
     lift := 1.86 },
   { name := "Price_Below_MA20_2pct", category := "추세",
     description := "20일 MA 대비 -2% ~ -5%",
     conditions := [("price_vs_ma_short", -5, -2)],
     train_occurrences := 194, train_win_rate := 0.268, train_avg_return := 4.0,
     test_occurrences := 87, test_win_rate := 0.644, test_avg_return := 11.6,
     lift := 1.83 },
   { name := "Combo_Below_MA_Volume", category := "복합",
     description := "20일 MA -3% 이상 하회 AND 거래량 1.3배+",
     conditions := [("price_vs_ma_short", -100, -3), ("volume_ratio", 1.3, 100)],
     train_occurrences := 96, train_win_rate := 0.365, train_avg_return := 6.0,
     test_occurrences := 25, test_win_rate := 0.600, test_avg_return := 13.6,
     lift := 1.70 },
   { name := "BB_NearLower", category := "변동성",
     description := "볼린저밴드 하단 근처 (0-0.2)",
     conditions := [("bb_position", 0, 0.2)],
     train_occurrences := 160, train_win_rate := 0.300, train_avg_return := 5.5,
     test_occurrences := 60, test_win_rate := 0.567, test_avg_return := 9.6,
     lift := 1.61 },
   { name := "Momentum20_SlightNegative", category := "모멘텀",
     description := "20일 모멘텀 -10% ~ 0%",
     conditions := [("momentum_20", -10, 0)],
     train_occurrences := 487, train_win_rate := 0.269, train_avg_return := 4.6,
     test_occurrences := 178, test_win_rate := 0.556, test_avg_return := 10.5,
     lift := 1.58 },
   { name := "RSI_Neutral_Low", category := "모멘텀",
     description := "RSI 40-50",
     conditions := [("rsi", 40, 50)],
     train_occurrences := 331, train_win_rate := 0.293, train_avg_return := 4.6,
     test_occurrences := 116, test_win_rate := 0.509, test_avg_return := 9.2,
     lift := 1.44 }]

/-- One signal dictionary emitted by `check_signals`
(validated_patterns.py lines 320-330). -/
structure Signal where
  pattern : String
  category : String
  description : String
  date : ℕ
  days_ago : ℕ
  price : ℚ
  test_win_rate : ℚ
  test_avg_return : ℚ
  lift : ℚ
  deriving DecidableEq

/-- The comparison under `signals.sort(key=lambda x: (x['days_ago'],
-x['test_win_rate']))` (validated_patterns.py line 333): ascending
`days_ago`, ties broken by descending `test_win_rate`. -/
def signal_le (s t : Signal) : Bool :=
  s.days_ago < t.days_ago ||
    (s.days_ago == t.days_ago && decide (t.test_win_rate ≤ s.test_win_rate))

/-- `check_signals` (validated_patterns.py lines 296-335): walk the indices
from `max(0, end_idx - lookback_days + 1)` to `end_idx = len(df) - 1`
(in `ℕ` the start is `len - lookback_days`), emit one signal per
(bar, catalog pattern) match, then sort.  Python's `list.sort` is a stable
mergesort; `List.mergeSort` mirrors it. -/
def check_signals (df : List Row) (lookback_days : ℕ) : List Signal :=
  let start_idx := df.length - lookback_days
  let signals := (List.range' start_idx (df.length - start_idx)).flatMap
    fun idx =>
      match df[idx]? with
      | none => []
      | some row =>
        VALIDATED_PATTERNS.filterMap fun p =>
          if p.check row then
            some { pattern := p.name
                   category := p.category
                   description := p.description
                   date := row.date
                   days_ago := df.length - 1 - idx
                   price := row.close
                   test_win_rate := p.test_win_rate
                   test_avg_return := p.test_avg_return
                   lift := p.lift }
          else none
  signals.mergeSort signal_le

/-! ## Specification-side counting definitions

These two definitions follow the words of the specification (not the code);
they exist to be compared against the code-side definitions above. -/

/-- Spec §3 invariant, stated in the spec's words: "A pattern's occurrence
count in any segment is counted only over bars that have both the indicator
values defined and a valid forward-return horizon (i.e., not in the final
holding_period rows of that segment)" — i.e. the matching bars among the
first `len − holding_period` bars of the segment. -/
def spec_horizon_occurrences (holding_period : ℕ) (df : List Row)
    (p : PatternDefinition) : ℕ :=
  ((df.take (df.length - holding_period)).filter fun r => p.check r).length

/-- Spec §4.3, stated in the spec's words: "compute occurrence rate =
matches / segment length; compute frequency_ratio = validation_rate /
discovery_rate (0 if discovery_rate is 0)". -/
def spec_frequency_ratio (discovery_count discovery_total validation_count
    validation_total : ℕ) : ℚ :=
  if (discovery_count : ℚ) / (discovery_total : ℚ) = 0 then 0
  else ((validation_count : ℚ) / (validation_total : ℚ)) /
    ((discovery_count : ℚ) / (discovery_total : ℚ))

/-- Spec §4.5, stated in the spec's words: "Scans the most recent
`lookback_days` bars (inclusive of the last bar); for each bar and each
ValidatedPattern, if the bar matches the pattern's rule, emit a signal."
The most recent `lookback_days` bars are the suffix
`df.drop (df.length - lookback_days)`; `days_ago` counts back from the
last bar. -/
def spec_recent_signals (df : List Row) (lookback_days : ℕ) : List Signal :=
  (df.drop (df.length - lookback_days)).enum.flatMap fun jr =>
    VALIDATED_PATTERNS.filterMap fun p =>
      if p.check jr.2 then
        some { pattern := p.name
               category := p.category
               description := p.description
               date := jr.2.date
               days_ago := (df.drop (df.length - lookback_days)).length - 1 - jr.1
               price := jr.2.close
               test_win_rate := p.test_win_rate
               test_avg_return := p.test_avg_return
               lift := p.lift }
      else none

/-! ## Helper lemmas -/

/-- Mapping `Prod.fst` over a zip truncates the left list to the right
list's length. -/
theorem map_fst_zip_eq_take {α β : Type} :
    ∀ (l₁ : List α) (l₂ : List β),
      (l₁.zip l₂).map Prod.fst = l₁.take l₂.length
  | [], _ => by simp
  | _ :: _, [] => by simp
  | a :: l₁, b :: l₂ => by
    simp [List.zip_cons_cons, map_fst_zip_eq_take l₁ l₂]

/-- The pattern-day count of `_check_pattern_returns` is the number of
matching bars among the first `len − holding_period` bars of the segment. -/
theorem pattern_days_eq_spec (holding_period : ℕ) (min_return : ℚ)
    (df : List Row) (p : PatternDefinition) :
    (check_pattern_returns holding_period min_return df p).pattern_days =
      spec_horizon_occurrences holding_period df p := by
  unfold check_pattern_returns spec_horizon_occurrences
  simp only [← List.countP_eq_length_filter]
  have h1 : (df.zip (df.drop holding_period)).countP (fun rr => p.check rr.1) =
      ((df.zip (df.drop holding_period)).map Prod.fst).countP (fun r => p.check r) := by
    rw [List.countP_map]
    rfl
  rw [h1, map_fst_zip_eq_take, List.length_drop]

/-! ## Claim theorems -/

/-- C9: for every bar series and fixed holding period, `find_profit_cases`
is antitone in `min_return`: raising the threshold never increases the
number of `ProfitCase`s returned. -/
theorem find_profit_cases_count_antitone (df : List Row)
    (holding_period : ℕ) (r1 r2 : ℚ) (h : r1 ≤ r2) :
    (find_profit_cases df holding_period r2).length ≤
      (find_profit_cases df holding_period r1).length := by
  unfold find_profit_cases
  simp only [List.length_map, ← List.countP_eq_length_filter]
  apply List.countP_mono_left
  intro ic _ hic
  simp only [decide_eq_true_eq] at hic ⊢
  exact le_trans h hic

/-- Witness for C9 at a concrete two-bar series: with `holding_period = 1`
the forward return is 8%, so the threshold 10 admits no case while the
threshold 5 admits one. -/
theorem find_profit_cases_count_antitone_witness :
    (find_profit_cases [⟨0, 100, []⟩, ⟨1, 108, []⟩] 1 10).length ≤
      (find_profit_cases [⟨0, 100, []⟩, ⟨1, 108, []⟩] 1 5).length :=
  find_profit_cases_count_antitone [⟨0, 100, []⟩, ⟨1, 108, []⟩] 1 5 10
    (by norm_num)

/-- C4: degenerate inputs yield 0 rather than an exception: a segment with
zero profit-qualifying days (in particular one with no more bars than the
holding period) has baseline win rate 0; a zero segment baseline gives the
pattern lift 0 in that segment; zero occurrences give win rate 0. -/
theorem degenerate_values_are_zero (holding_period : ℕ) (min_return : ℚ)
    (df df2 : List Row) (p : PatternDefinition) (b1 b2 : ℚ) :
    ((find_profit_cases df holding_period min_return).length = 0 →
      calculate_baseline holding_period min_return df = 0) ∧
    (df.length ≤ holding_period →
      calculate_baseline holding_period min_return df = 0) ∧
    (b1 = 0 →
      (validate_single_pattern holding_period min_return df df2 p b1 b2).lift_train = 0) ∧
    (b2 = 0 →
      (validate_single_pattern holding_period min_return df df2 p b1 b2).lift_test = 0) ∧
    ((check_pattern_returns holding_period min_return df p).pattern_days = 0 →
      (check_pattern_returns holding_period min_return df p).win_rate = 0) := by
  refine ⟨?_, ?_, ?_, ?_, ?_⟩
  · intro h
    unfold find_profit_cases at h
    unfold calculate_baseline
    simp only [List.length_map, ← List.countP_eq_length_filter] at h ⊢
    have henum : (df.zip (df.drop holding_period)).enum.countP
        (fun ic => decide (min_return ≤ fwd_return ic.2.1.close ic.2.2.close)) =
        (df.zip (df.drop holding_period)).countP
          (fun rr => decide (min_return ≤ fwd_return rr.1.close rr.2.close)) := by
      conv_rhs => rw [← List.enum_map_snd (df.zip (df.drop holding_period))]
      rw [List.countP_map]
      rfl
    rw [henum] at h
    rw [h]
    split <;> simp
  · intro h
    unfold calculate_baseline
    rw [List.drop_eq_nil_of_le h, List.zip_nil_right]
    simp
  · intro h
    simp only [validate_single_pattern, liftOf, h, lt_irrefl, if_false]
  · intro h
    simp only [validate_single_pattern, liftOf, h, lt_irrefl, if_false]
  · intro h
    unfold check_pattern_returns at h ⊢
    simp only at h ⊢
    rw [h]
    simp

/-- Witness for C4 at concrete inputs: a single-bar segment with holding
period 60 has baseline 0, and a zero Train baseline gives Train lift 0. -/
theorem degenerate_values_are_zero_witness :
    calculate_baseline 60 10 [⟨0, 100, []⟩] = 0 ∧
    (validate_single_pattern 60 10 [⟨0, 100, []⟩] []
      ⟨"P", "c", "d", [("x", 0, 1)]⟩ 0 0).lift_train = 0 :=
  ⟨(degenerate_values_are_zero 60 10 [⟨0, 100, []⟩] []
      ⟨"P", "c", "d", [("x", 0, 1)]⟩ 0 0).2.1 (by decide),
   (degenerate_values_are_zero 60 10 [⟨0, 100, []⟩] []
      ⟨"P", "c", "d", [("x", 0, 1)]⟩ 0 0).2.2.1 rfl⟩

/-- C10: a pattern condition naming an indicator that is entirely absent
as a column makes `check` return `false` rather than raise — for
`PatternDefinition.check` and `ValidatedPattern.check` alike; hence a
pattern referencing a column missing from the whole frame matches no bar
in either counting loop of the validators nor in the signal scan. -/
theorem absent_column_never_matches (p : PatternDefinition)
    (vp : ValidatedPattern) (row : Row) (df : List Row)
    (holding_period i : ℕ) (min_return : ℚ) :
    ((∃ c ∈ p.conditions, row.col c.1 = none) → p.check row = false) ∧
    ((∃ c ∈ vp.conditions, row.col c.1 = none) → vp.check row = false) ∧
    ((∃ c ∈ p.conditions, ∀ r ∈ df, r.col c.1 = none) →
      (check_pattern_returns holding_period min_return df p).pattern_days = 0 ∧
      (freq_stats_of df i p).discovery_count = 0 ∧
      (freq_stats_of df i p).validation_count = 0) ∧
    ((∃ c ∈ vp.conditions, ∀ r ∈ df, r.col c.1 = none) →
      ∀ r ∈ df, vp.check r = false) := by
  have h1 : ∀ (q : PatternDefinition) (rw : Row),
      (∃ c ∈ q.conditions, rw.col c.1 = none) → q.check rw = false := by
    rintro q rw ⟨c, hc, hnone⟩
    unfold PatternDefinition.check
    rw [List.all_eq_false]
    exact ⟨c, hc, by simp [hnone]⟩
  have h2 : ∀ (rw : Row),
      (∃ c ∈ vp.conditions, rw.col c.1 = none) → vp.check rw = false := by
    rintro rw ⟨c, hc, hnone⟩
    unfold ValidatedPattern.check
    rw [List.all_eq_false]
    exact ⟨c, hc, by simp [hnone]⟩
  refine ⟨h1 p row, h2 row, ?_, ?_⟩
  · rintro ⟨c, hc, habs⟩
    have hz : ∀ r ∈ df, ¬ (p.check r = true) := fun r hr => by
      rw [h1 p r ⟨c, hc, habs r hr⟩]
      simp
    refine ⟨?_, ?_, ?_⟩
    · rw [pattern_days_eq_spec]
      unfold spec_horizon_occurrences
      rw [List.filter_eq_nil_iff.mpr fun r hr => hz r (List.mem_of_mem_take hr)]
      rfl
    · simp only [freq_stats_of]
      rw [List.filter_eq_nil_iff.mpr fun r hr => hz r (List.mem_of_mem_take hr)]
      rfl
    · simp only [freq_stats_of]
      rw [List.filter_eq_nil_iff.mpr fun r hr => hz r (List.mem_of_mem_drop hr)]
      rfl
  · rintro ⟨c, hc, habs⟩ r hr
    exact h2 r ⟨c, hc, habs r hr⟩

/-- The percent-rate ratio computed by `_validate_frequency` equals the
spec's occurrence-rate ratio (division by zero in `ℚ` is `0`, matching the
code's guards). -/
theorem percent_ratio_eq_spec_ratio (dc dt vc vt : ℕ) :
    (if 0 < (if 0 < dt then (dc : ℚ) / (dt : ℚ) * 100 else 0) then
        (if 0 < vt then (vc : ℚ) / (vt : ℚ) * 100 else 0) /
          (if 0 < dt then (dc : ℚ) / (dt : ℚ) * 100 else 0)
      else 0) = spec_frequency_ratio dc dt vc vt := by
  unfold spec_frequency_ratio
  rcases Nat.eq_zero_or_pos dt with hdt | hdt
  · subst hdt
    norm_num
  · have hdt' : (0 : ℚ) < dt := by exact_mod_cast hdt
    rcases Nat.eq_zero_or_pos dc with hdc | hdc
    · subst hdc
      simp
    · have hdc' : (0 : ℚ) < dc := by exact_mod_cast hdc
      have hne : ((dc : ℚ) / (dt : ℚ)) ≠ 0 := (div_pos hdc' hdt').ne'
      have hpos : (0 : ℚ) < (dc : ℚ) / (dt : ℚ) * 100 :=
        mul_pos (div_pos hdc' hdt') (by norm_num)
      simp only [if_pos hdt, if_pos hpos, if_neg hne]
      rcases Nat.eq_zero_or_pos vt with hvt | hvt
      · subst hvt
        norm_num
      · simp only [if_pos hvt]
        exact mul_div_mul_right _ _ (by norm_num)

/-- C2: a pattern's `PatternStats.passed` flag is true, and the pattern is
in the Frequency Validator's pass list, iff its discovery count is at least
10, its validation count at least 5, and its frequency ratio at least 0.3 —
the frequency ratio being the validation-segment occurrence rate over the
discovery-segment occurrence rate (0 when the latter is 0), as the first
conjunct states. -/
theorem frequency_pass_iff (df : List Row) (patterns : List PatternDefinition)
    (i : ℕ) (p : PatternDefinition) (hmem : p ∈ patterns) :
    (freq_stats_of df i p).frequency_ratio =
      spec_frequency_ratio (freq_stats_of df i p).discovery_count
        (freq_stats_of df i p).discovery_total_days
        (freq_stats_of df i p).validation_count
        (freq_stats_of df i p).validation_total_days ∧
    (((freq_stats_of df i p).passed = true ∧
        p ∈ (validate_frequency df patterns i).1) ↔
      (10 ≤ (freq_stats_of df i p).discovery_count ∧
        5 ≤ (freq_stats_of df i p).validation_count ∧
        (0.3 : ℚ) ≤ (freq_stats_of df i p).frequency_ratio)) := by
  constructor
  · simp only [freq_stats_of]
    exact percent_ratio_eq_spec_ratio _ _ _ _
  · have hfl : p ∈ (validate_frequency df patterns i).1 ↔
        (freq_stats_of df i p).passed = true := by
      simp [validate_frequency, List.mem_filter, hmem]
    rw [hfl, and_self]
    simp only [freq_stats_of, Bool.and_eq_true, decide_eq_true_eq]
    tauto

/-- Witness for C2 at a concrete input: a two-bar frame whose bars both
match the pattern, split after the first bar; both counts are 1, so the
pattern fails the thresholds and both sides of the iff are false. -/
theorem frequency_pass_iff_witness :
    ((freq_stats_of [⟨0, 100, [("x", some 0.5)]⟩, ⟨1, 100, [("x", some 0.5)]⟩]
        0 ⟨"P", "c", "d", [("x", 0, 1)]⟩).passed = true ∧
      ⟨"P", "c", "d", [("x", 0, 1)]⟩ ∈
        (validate_frequency
          [⟨0, 100, [("x", some 0.5)]⟩, ⟨1, 100, [("x", some 0.5)]⟩]
          [⟨"P", "c", "d", [("x", 0, 1)]⟩] 0).1) ↔
      (10 ≤ (freq_stats_of [⟨0, 100, [("x", some 0.5)]⟩, ⟨1, 100, [("x", some 0.5)]⟩]
          0 ⟨"P", "c", "d", [("x", 0, 1)]⟩).discovery_count ∧
        5 ≤ (freq_stats_of [⟨0, 100, [("x", some 0.5)]⟩, ⟨1, 100, [("x", some 0.5)]⟩]
          0 ⟨"P", "c", "d", [("x", 0, 1)]⟩).validation_count ∧
        (0.3 : ℚ) ≤ (freq_stats_of [⟨0, 100, [("x", some 0.5)]⟩, ⟨1, 100, [("x", some 0.5)]⟩]
          0 ⟨"P", "c", "d", [("x", 0, 1)]⟩).frequency_ratio) :=
  (frequency_pass_iff
    [⟨0, 100, [("x", some 0.5)]⟩, ⟨1, 100, [("x", some 0.5)]⟩]
    [⟨"P", "c", "d", [("x", 0, 1)]⟩] 0 ⟨"P", "c", "d", [("x", 0, 1)]⟩
    (by decide)).2

/-- C1: a pattern's `PatternPerformance.validated` flag is true, and the
pattern is in the Profitability Validator's output list, iff all six
conditions hold: Train occurrences ≥ 20, Test occurrences ≥ 10, Train win
rate > Train baseline + 0.05, Test win rate > Test baseline + 0.05, Train
lift ≥ 1.2 and Test lift ≥ 1.2. -/
theorem profitability_validated_iff (holding_period : ℕ)
    (min_return train_ratio : ℚ) (df : List Row)
    (patterns : List PatternDefinition) (p : PatternDefinition)
    (hmem : p ∈ patterns) :
    ((validate_single_pattern holding_period min_return
        (train_segment train_ratio df) (test_segment train_ratio df) p
        (calculate_baseline holding_period min_return (train_segment train_ratio df))
        (calculate_baseline holding_period min_return (test_segment train_ratio df))).validated = true ∧
      p ∈ (validate_patterns holding_period min_return train_ratio df patterns).1) ↔
    (20 ≤ (check_pattern_returns holding_period min_return
        (train_segment train_ratio df) p).pattern_days ∧
      10 ≤ (check_pattern_returns holding_period min_return
        (test_segment train_ratio df) p).pattern_days ∧
      calculate_baseline holding_period min_return (train_segment train_ratio df) + 0.05 <
        (check_pattern_returns holding_period min_return
          (train_segment train_ratio df) p).win_rate ∧
      calculate_baseline holding_period min_return (test_segment train_ratio df) + 0.05 <
        (check_pattern_returns holding_period min_return
          (test_segment train_ratio df) p).win_rate ∧
      (1.2 : ℚ) ≤ liftOf (check_pattern_returns holding_period min_return
          (train_segment train_ratio df) p).win_rate
        (calculate_baseline holding_period min_return (train_segment train_ratio df)) ∧
      (1.2 : ℚ) ≤ liftOf (check_pattern_returns holding_period min_return
          (test_segment train_ratio df) p).win_rate
        (calculate_baseline holding_period min_return (test_segment train_ratio df))) := by
  have hfl : p ∈ (validate_patterns holding_period min_return train_ratio df patterns).1 ↔
      (validate_single_pattern holding_period min_return
        (train_segment train_ratio df) (test_segment train_ratio df) p
        (calculate_baseline holding_period min_return (train_segment train_ratio df))
        (calculate_baseline holding_period min_return (test_segment train_ratio df))).validated = true := by
    simp [validate_patterns, List.mem_filter, hmem]
  rw [hfl, and_self]
  simp only [validate_single_pattern, Bool.and_eq_true, decide_eq_true_eq]
  tauto

/-- Witness for C1 at a concrete input: the empty frame, where every count
and baseline is 0, the pattern is not validated, and both sides of the iff
are false. -/
theorem profitability_validated_iff_witness :
    ((validate_single_pattern 1 10
        (train_segment 0.7 ([] : List Row)) (test_segment 0.7 ([] : List Row))
        ⟨"P", "c", "d", [("x", 0, 1)]⟩
        (calculate_baseline 1 10 (train_segment 0.7 ([] : List Row)))
        (calculate_baseline 1 10 (test_segment 0.7 ([] : List Row)))).validated = true ∧
      (⟨"P", "c", "d", [("x", 0, 1)]⟩ : PatternDefinition) ∈
        (validate_patterns 1 10 0.7 ([] : List Row)
          [⟨"P", "c", "d", [("x", 0, 1)]⟩]).1) ↔
    (20 ≤ (check_pattern_returns 1 10 (train_segment 0.7 ([] : List Row))
        ⟨"P", "c", "d", [("x", 0, 1)]⟩).pattern_days ∧
      10 ≤ (check_pattern_returns 1 10 (test_segment 0.7 ([] : List Row))
        ⟨"P", "c", "d", [("x", 0, 1)]⟩).pattern_days ∧
      calculate_baseline 1 10 (train_segment 0.7 ([] : List Row)) + 0.05 <
        (check_pattern_returns 1 10 (train_segment 0.7 ([] : List Row))
          ⟨"P", "c", "d", [("x", 0, 1)]⟩).win_rate ∧
      calculate_baseline 1 10 (test_segment 0.7 ([] : List Row)) + 0.05 <
        (check_pattern_returns 1 10 (test_segment 0.7 ([] : List Row))
          ⟨"P", "c", "d", [("x", 0, 1)]⟩).win_rate ∧
      (1.2 : ℚ) ≤ liftOf (check_pattern_returns 1 10 (train_segment 0.7 ([] : List Row))
          ⟨"P", "c", "d", [("x", 0, 1)]⟩).win_rate
        (calculate_baseline 1 10 (train_segment 0.7 ([] : List Row))) ∧
      (1.2 : ℚ) ≤ liftOf (check_pattern_returns 1 10 (test_segment 0.7 ([] : List Row))
          ⟨"P", "c", "d", [("x", 0, 1)]⟩).win_rate
        (calculate_baseline 1 10 (test_segment 0.7 ([] : List Row)))) :=
  profitability_validated_iff 1 10 0.7 [] [⟨"P", "c", "d", [("x", 0, 1)]⟩]
    ⟨"P", "c", "d", [("x", 0, 1)]⟩ (by decide)

/-- C3 counterexample: a one-bar frame whose bar matches the pattern, with
the discovery segment equal to that one bar.  For any positive holding
period (here 60, the pipeline default) that bar lies in the final
`holding_period` rows of the segment and has no forward-return horizon, so
the claim demands an occurrence count of 0 — but the Frequency Validator
counts it: `discovery_count = 1`. -/
theorem frequency_counts_include_final_rows :
    (freq_stats_of [⟨0, 100, [("x", some 0.5)]⟩] 0
      ⟨"P", "c", "d", [("x", 0, 1)]⟩).discovery_count = 1 ∧
    spec_horizon_occurrences 60 [⟨0, 100, [("x", some 0.5)]⟩]
      ⟨"P", "c", "d", [("x", 0, 1)]⟩ = 0 := by
  refine ⟨?_, rfl⟩
  norm_num [freq_stats_of, PatternDefinition.check, Row.col, List.lookup,
    List.filter]

/-- C3 amended: in the Profitability Validator's Train/Test segments the
occurrence count counts exactly the matching bars with a valid
forward-return horizon (bars in the final `holding_period` rows are never
counted), and any matching bar has all the pattern's indicators defined;
the Frequency Validator, by contrast, counts matching bars over *every*
row of its discovery and validation segments, including the final
`holding_period` rows. -/
theorem occurrence_counting_by_segment (holding_period i : ℕ)
    (min_return : ℚ) (df : List Row) (p : PatternDefinition) (row : Row) :
    (check_pattern_returns holding_period min_return df p).pattern_days =
      spec_horizon_occurrences holding_period df p ∧
    (freq_stats_of df i p).discovery_count =
      ((df.take (i + 1)).filter fun r => p.check r).length ∧
    (freq_stats_of df i p).validation_count =
      ((df.drop (i + 1)).filter fun r => p.check r).length ∧
    (p.check row = true →
      ∀ c ∈ p.conditions, ∃ v,
        row.col c.1 = some (some v) ∧ c.2.1 ≤ v ∧ v ≤ c.2.2) := by
  refine ⟨pattern_days_eq_spec _ _ _ _, rfl, rfl, ?_⟩
  intro hchk c hc
  unfold PatternDefinition.check at hchk
  have hf := List.all_eq_true.mp hchk c hc
  cases hcol : row.col c.1 with
  | none =>
    rw [hcol] at hf
    simp at hf
  | some o =>
    cases o with
    | none =>
      rw [hcol] at hf
      simp at hf
    | some v =>
      rw [hcol] at hf
      simp only [decide_eq_true_eq] at hf
      exact ⟨v, rfl, hf.1, hf.2⟩

/-- C6 counterexample: with a stats table containing only `volatility_20`
(whose sample statistics are negative), `_define_patterns` emits
`Volatility_High` with the ill-formed range `(-2, -3)` (min > max, since
`p75 = -2 > 2 * max = -3`), and also emits `Combo_Oversold_Momentum`,
whose first condition references the indicator `rsi` absent from the
table. -/
theorem define_patterns_counterexample :
    ({ name := "Volatility_High", category := "변동성",
       description := "높은 변동성 (상위 25%)",
       conditions := [("volatility_20", -2, -3)] } : PatternDefinition) ∈
      define_patterns
        [("volatility_20", ⟨0, 0, -4, -1.5, -4, -4, -3, -2, -2, 10⟩)] ∧
    (-3 : ℚ) < -2 ∧
    ({ name := "Combo_Oversold_Momentum", category := "복합",
       description := "RSI < 40 AND 10일 모멘텀 < -5%",
       conditions := [("rsi", 0, 40), ("momentum_10", -100, -5)] } :
        PatternDefinition) ∈
      define_patterns
        [("volatility_20", ⟨0, 0, -4, -1.5, -4, -4, -3, -2, -2, 10⟩)] ∧
    List.lookup "rsi"
      [("volatility_20",
        (⟨0, 0, -4, -1.5, -4, -4, -3, -2, -2, 10⟩ : FeatureStat))] = none := by
  refine ⟨?_, by norm_num, ?_, rfl⟩ <;> norm_num [define_patterns, List.lookup]

/-- C6 amended: every condition of every emitted pattern either references
an indicator present in the stats table or belongs to one of the six
hard-coded composite patterns (which are emitted without membership
guards); and every emitted range is well-formed (min ≤ max) provided the
`volatility_20` statistics, when present, satisfy
`0 ≤ p25 ≤ p50 ≤ p75 ≤ max` (as percentile statistics of non-negative
volatility samples do). -/
theorem define_patterns_wellformedness (fs : List (String × FeatureStat))
    (p : PatternDefinition) (hp : p ∈ define_patterns fs) :
    ∀ c ∈ p.conditions,
      ((fs.lookup c.1).isSome = true ∨
        p.name ∈ ["Combo_Oversold_Momentum", "Combo_BB_RSI_Oversold",
          "Combo_Below_MA_Volume", "Combo_Strong_Dip", "Combo_Mild_Pullback",
          "Combo_Deep_Dip_HighVol"]) ∧
      ((∀ s, fs.lookup "volatility_20" = some s →
          0 ≤ s.p25 ∧ s.p25 ≤ s.p50 ∧ s.p50 ≤ s.p75 ∧ s.p75 ≤ s.max) →
        c.2.1 ≤ c.2.2) := by
  intro c hc
  unfold define_patterns at hp
  simp only [List.mem_append] at hp
  rcases hp with ((((((((hA|hB)|hC)|hD)|hE)|hF)|hG)|hH)|hI)|hJ
  · split at hA
    · rename_i hg
      simp only [List.mem_cons, List.not_mem_nil, or_false] at hA
      rcases hA with rfl|rfl|rfl|rfl|rfl <;>
        simp only [List.mem_cons, List.not_mem_nil, or_false] at hc <;>
        rcases hc with rfl <;>
        exact ⟨Or.inl hg, fun _ => by norm_num⟩
    · simp at hA
  · split at hB
    · rename_i hg
      simp only [List.mem_cons, List.not_mem_nil, or_false] at hB
      rcases hB with rfl|rfl|rfl <;>
        simp only [List.mem_cons, List.not_mem_nil, or_false] at hc <;>
        rcases hc with rfl <;>
        exact ⟨Or.inl hg, fun _ => by norm_num⟩
    · simp at hB
  · split at hC
    · rename_i hg
      simp only [List.mem_cons, List.not_mem_nil, or_false] at hC
      rcases hC with rfl|rfl|rfl <;>
        simp only [List.mem_cons, List.not_mem_nil, or_false] at hc <;>
        rcases hc with rfl <;>
        exact ⟨Or.inl hg, fun _ => by norm_num⟩
    · simp at hC
  · split at hD
    · rename_i hg
      simp only [List.mem_cons, List.not_mem_nil, or_false] at hD
      rcases hD with rfl|rfl|rfl|rfl <;>
        simp only [List.mem_cons, List.not_mem_nil, or_false] at hc <;>
        rcases hc with rfl <;>
        exact ⟨Or.inl hg, fun _ => by norm_num⟩
    · simp at hD
  · split at hE
    · rename_i hg
      simp only [List.mem_cons, List.not_mem_nil, or_false] at hE
      rcases hE with rfl|rfl|rfl <;>
        simp only [List.mem_cons, List.not_mem_nil, or_false] at hc <;>
        rcases hc with rfl <;>
        exact ⟨Or.inl hg, fun _ => by norm_num⟩
    · simp at hE
  · split at hF
    · rename_i hg
      simp only [List.mem_cons, List.not_mem_nil, or_false] at hF
      rcases hF with rfl|rfl|rfl <;>
        simp only [List.mem_cons, List.not_mem_nil, or_false] at hc <;>
        rcases hc with rfl <;>
        exact ⟨Or.inl hg, fun _ => by norm_num⟩
    · simp at hF
  · split at hG
    · rename_i hg
      simp only [List.mem_cons, List.not_mem_nil, or_false] at hG
      rcases hG with rfl|rfl|rfl <;>
        simp only [List.mem_cons, List.not_mem_nil, or_false] at hc <;>
        rcases hc with rfl <;>
        exact ⟨Or.inl hg, fun _ => by norm_num⟩
    · simp at hG
  · split at hH
    · rename_i s heq
      simp only [List.mem_cons, List.not_mem_nil, or_false] at hH
      rcases hH with rfl|rfl|rfl <;>
        simp only [List.mem_cons, List.not_mem_nil, or_false] at hc <;>
        rcases hc with rfl
      · refine ⟨Or.inl (by rw [heq]; rfl), fun hvol => ?_⟩
        obtain ⟨h1, h2, h3, h4⟩ := hvol s heq
        dsimp only
        linarith
      · refine ⟨Or.inl (by rw [heq]; rfl), fun hvol => ?_⟩
        obtain ⟨h1, h2, h3, h4⟩ := hvol s heq
        dsimp only
        linarith
      · refine ⟨Or.inl (by rw [heq]; rfl), fun hvol => ?_⟩
        obtain ⟨h1, h2, h3, h4⟩ := hvol s heq
        dsimp only
        linarith
    · simp at hH
  · simp only [List.mem_cons, List.not_mem_nil, or_false] at hI
    rcases hI with rfl|rfl|rfl|rfl|rfl <;>
      simp only [List.mem_cons, List.not_mem_nil, or_false] at hc <;>
      rcases hc with rfl|rfl <;>
      exact ⟨Or.inr (by simp), fun _ => by norm_num⟩
  · split at hJ
    · rename_i s heq
      simp only [List.mem_cons, List.not_mem_nil, or_false] at hJ
      rcases hJ with rfl
      simp only [List.mem_cons, List.not_mem_nil, or_false] at hc
      rcases hc with rfl|rfl
      · exact ⟨Or.inr (by simp), fun _ => by norm_num⟩
      · refine ⟨Or.inr (by simp), fun hvol => ?_⟩
        obtain ⟨h1, h2, h3, h4⟩ := hvol s heq
        dsimp only
        linarith
    · simp at hJ

/-- Witness for C6 amended, at the empty stats table and the composite
pattern `Combo_Strong_Dip` (emitted unconditionally), first condition
`("momentum_20", -100, -10)`. -/
theorem define_patterns_wellformedness_witness :
    ((List.lookup "momentum_20"
        ([] : List (String × FeatureStat))).isSome = true ∨
      ("Combo_Strong_Dip" : String) ∈
        ["Combo_Oversold_Momentum", "Combo_BB_RSI_Oversold",
          "Combo_Below_MA_Volume", "Combo_Strong_Dip", "Combo_Mild_Pullback",
          "Combo_Deep_Dip_HighVol"]) ∧
    ((∀ s, List.lookup "volatility_20"
        ([] : List (String × FeatureStat)) = some s →
        0 ≤ s.p25 ∧ s.p25 ≤ s.p50 ∧ s.p50 ≤ s.p75 ∧ s.p75 ≤ s.max) →
      (-100 : ℚ) ≤ -10) :=
  define_patterns_wellformedness []
    { name := "Combo_Strong_Dip", category := "복합",
      description := "20일 모멘텀 < -10% AND BB 하단",
      conditions := [("momentum_20", -100, -10), ("bb_position", -10, 0.3)] }
    (by norm_num [define_patterns, List.lookup])
    ("momentum_20", -100, -10) (by norm_num)

/-- C8 counterexample: two four-bar frames that differ only in the Test
segment (last close 120 vs 100, giving Test baselines 1 and 0 under
`holding_period = 1`, `min_return = 10`, `train_ratio = 0.7`) produce
*identical* `PatternPerformance` records for a pattern that never matches
— so the Test baseline is not contained in the record. -/
theorem pattern_performance_no_test_baseline :
    (validate_patterns 1 10 0.7
        [⟨0, 100, []⟩, ⟨1, 100, []⟩, ⟨2, 100, []⟩, ⟨3, 120, []⟩]
        [⟨"P", "c", "d", [("x", 0, 1)]⟩]).2 =
      (validate_patterns 1 10 0.7
        [⟨0, 100, []⟩, ⟨1, 100, []⟩, ⟨2, 100, []⟩, ⟨3, 100, []⟩]
        [⟨"P", "c", "d", [("x", 0, 1)]⟩]).2 ∧
    calculate_baseline 1 10 (test_segment 0.7
        [⟨0, 100, []⟩, ⟨1, 100, []⟩, ⟨2, 100, []⟩, ⟨3, 120, []⟩]) ≠
      calculate_baseline 1 10 (test_segment 0.7
        [⟨0, 100, []⟩, ⟨1, 100, []⟩, ⟨2, 100, []⟩, ⟨3, 100, []⟩]) := by
  have htn : Int.toNat 2 = 2 := rfl
  constructor
  · norm_num [validate_patterns, validate_single_pattern, check_pattern_returns,
      calculate_baseline, train_segment, test_segment, split_index, liftOf,
      PatternDefinition.check, Row.col, List.lookup, fwd_return, List.filter]
  · norm_num [calculate_baseline, test_segment, split_index, fwd_return,
      List.filter, htn]

/-- C8 amended: every `PatternPerformance` record contains, for Train and
Test independently, the occurrence count, profit-day count, win rate and
average forward return, plus both lift values and the validated flag — but
only one baseline field, which holds the *Train* segment baseline; the
Test baseline is used to compute the Test lift and is not stored. -/
theorem pattern_performance_fields (holding_period : ℕ)
    (min_return train_ratio : ℚ) (df : List Row)
    (patterns : List PatternDefinition) (p : PatternDefinition)
    (hmem : p ∈ patterns) :
    ∃ perf ∈ (validate_patterns holding_period min_return train_ratio df patterns).2,
      perf.name = p.name ∧
      perf.train_pattern_days = (check_pattern_returns holding_period min_return
        (train_segment train_ratio df) p).pattern_days ∧
      perf.train_profit_days = (check_pattern_returns holding_period min_return
        (train_segment train_ratio df) p).profit_days ∧
      perf.train_win_rate = (check_pattern_returns holding_period min_return
        (train_segment train_ratio df) p).win_rate ∧
      perf.train_avg_return = (check_pattern_returns holding_period min_return
        (train_segment train_ratio df) p).avg_return ∧
      perf.test_pattern_days = (check_pattern_returns holding_period min_return
        (test_segment train_ratio df) p).pattern_days ∧
      perf.test_profit_days = (check_pattern_returns holding_period min_return
        (test_segment train_ratio df) p).profit_days ∧
      perf.test_win_rate = (check_pattern_returns holding_period min_return
        (test_segment train_ratio df) p).win_rate ∧
      perf.test_avg_return = (check_pattern_returns holding_period min_return
        (test_segment train_ratio df) p).avg_return ∧
      perf.baseline_win_rate = calculate_baseline holding_period min_return
        (train_segment train_ratio df) ∧
      perf.lift_train = liftOf perf.train_win_rate
        (calculate_baseline holding_period min_return (train_segment train_ratio df)) ∧
      perf.lift_test = liftOf perf.test_win_rate
        (calculate_baseline holding_period min_return (test_segment train_ratio df)) :=
  ⟨validate_single_pattern holding_period min_return
      (train_segment train_ratio df) (test_segment train_ratio df) p
      (calculate_baseline holding_period min_return (train_segment train_ratio df))
      (calculate_baseline holding_period min_return (test_segment train_ratio df)),
    List.mem_map_of_mem _ hmem,
    rfl, rfl, rfl, rfl, rfl, rfl, rfl, rfl, rfl, rfl, rfl, rfl⟩

/-- Witness for C8 amended at the empty frame and a singleton pattern
list. -/
theorem pattern_performance_fields_witness :
    ∃ perf ∈ (validate_patterns 1 10 0.7 ([] : List Row)
        [⟨"P", "c", "d", [("x", 0, 1)]⟩]).2,
      perf.name = "P" ∧
      perf.train_pattern_days = (check_pattern_returns 1 10
        (train_segment 0.7 []) ⟨"P", "c", "d", [("x", 0, 1)]⟩).pattern_days ∧
      perf.train_profit_days = (check_pattern_returns 1 10
        (train_segment 0.7 []) ⟨"P", "c", "d", [("x", 0, 1)]⟩).profit_days ∧
      perf.train_win_rate = (check_pattern_returns 1 10
        (train_segment 0.7 []) ⟨"P", "c", "d", [("x", 0, 1)]⟩).win_rate ∧
      perf.train_avg_return = (check_pattern_returns 1 10
        (train_segment 0.7 []) ⟨"P", "c", "d", [("x", 0, 1)]⟩).avg_return ∧
      perf.test_pattern_days = (check_pattern_returns 1 10
        (test_segment 0.7 []) ⟨"P", "c", "d", [("x", 0, 1)]⟩).pattern_days ∧
      perf.test_profit_days = (check_pattern_returns 1 10
        (test_segment 0.7 []) ⟨"P", "c", "d", [("x", 0, 1)]⟩).profit_days ∧
      perf.test_win_rate = (check_pattern_returns 1 10
        (test_segment 0.7 []) ⟨"P", "c", "d", [("x", 0, 1)]⟩).win_rate ∧
      perf.test_avg_return = (check_pattern_returns 1 10
        (test_segment 0.7 []) ⟨"P", "c", "d", [("x", 0, 1)]⟩).avg_return ∧
      perf.baseline_win_rate = calculate_baseline 1 10 (train_segment 0.7 []) ∧
      perf.lift_train = liftOf perf.train_win_rate
        (calculate_baseline 1 10 (train_segment 0.7 [])) ∧
      perf.lift_test = liftOf perf.test_win_rate
        (calculate_baseline 1 10 (test_segment 0.7 [])) :=
  pattern_performance_fields 1 10 0.7 [] [⟨"P", "c", "d", [("x", 0, 1)]⟩]
    ⟨"P", "c", "d", [("x", 0, 1)]⟩ (by simp)

/-- C5: evaluation of the code at the failing input.  With two bars and
`holding_period = 60` (fewer bars than the holding period) there are no
profit cases, the discovery prefix is empty, and line 112 of
pattern_finder.py (`discovery_cases[-1]`) raises an uncaught `IndexError`
(modelled as `none`) instead of completing with an empty pattern list;
`run_full_pipeline` fails the same way. -/
theorem find_patterns_fails_on_insufficient_data :
    find_patterns 60 10 0.67 [⟨0, 100, []⟩, ⟨1, 200, []⟩] = none ∧
    run_full_pipeline [⟨0, 100, []⟩, ⟨1, 200, []⟩] 60 10 = none := by
  have hdrop : ([⟨0, 100, []⟩, ⟨1, 200, []⟩] : List Row).drop 60 = [] :=
    List.drop_eq_nil_of_le (by norm_num)
  constructor <;>
    norm_num [run_full_pipeline, find_patterns, find_profit_cases,
      split_index, hdrop, List.zip_nil_right]

/-- Walking indices `s, s+1, …, l.length - 1` and looking each one up in
`l` is the same as walking the suffix `l.drop s` enumerated from `s`. -/
theorem index_flatMap_enumFrom {β : Type} (l : List Row) (g : ℕ → Row → List β) :
    ∀ k s, k = l.length - s →
      (List.range' s k).flatMap
          (fun idx => match l[idx]? with | none => [] | some row => g idx row) =
        (List.enumFrom s (l.drop s)).flatMap fun jr => g jr.1 jr.2 := by
  intro k
  induction k with
  | zero =>
    intro s hs
    have h1 : l.length ≤ s := by omega
    simp [List.drop_eq_nil_of_le h1]
  | succ k ih =>
    intro s hs
    have hslt : s < l.length := by omega
    have ha : l[s]? = some l[s] := List.getElem?_eq_getElem hslt
    have hdrop : l.drop s = l[s] :: l.drop (s + 1) :=
      List.drop_eq_getElem_cons hslt
    rw [List.range'_succ, List.flatMap_cons, ha, hdrop, List.enumFrom_cons,
      List.flatMap_cons, ih (s + 1) (by omega)]

/-- Enumerating from `s` and consuming the index is enumerating from `0`
and adding `s` to the index. -/
theorem enumFrom_flatMap_shift {β : Type} :
    ∀ (m : List Row) (g : ℕ → Row → List β) (s : ℕ),
      (List.enumFrom s m).flatMap (fun jr => g jr.1 jr.2) =
        m.enum.flatMap fun jr => g (s + jr.1) jr.2 := by
  intro m
  induction m with
  | nil =>
    intro g s
    rfl
  | cons a m ih =>
    intro g s
    have h2 := ih (fun i r => g (s + i) r) 1
    simp only [] at h2
    rw [List.enumFrom_cons, List.flatMap_cons, ih g (s + 1),
      List.enum_cons, List.flatMap_cons, h2]
    simp [Nat.add_assoc]

/-- Walking indices `s, s+1, …, l.length - 1` and looking each one up in
`l` is the same as walking the enumerated suffix `l.drop s`. -/
theorem index_flatMap_eq {β : Type} (l : List Row) (g : ℕ → Row → List β)
    (k s : ℕ) (hk : k = l.length - s) :
    (List.range' s k).flatMap
        (fun idx => match l[idx]? with | none => [] | some row => g idx row) =
      (l.drop s).enum.flatMap fun jr => g (s + jr.1) jr.2 := by
  rw [index_flatMap_enumFrom l g k s hk]
  exact enumFrom_flatMap_shift (l.drop s) g s

/-- `signal_le` is transitive. -/
theorem signal_le_trans (a b c : Signal) (hab : signal_le a b = true)
    (hbc : signal_le b c = true) : signal_le a c = true := by
  simp only [signal_le, Bool.or_eq_true, decide_eq_true_eq,
    Bool.and_eq_true, beq_iff_eq] at hab hbc ⊢
  rcases hab with h1 | ⟨h1, h2⟩ <;> rcases hbc with h3 | ⟨h3, h4⟩
  · exact Or.inl (h1.trans h3)
  · exact Or.inl (h3 ▸ h1)
  · exact Or.inl (h1 ▸ h3)
  · exact Or.inr ⟨h1.trans h3, le_trans h4 h2⟩

/-- `signal_le` is total. -/
theorem signal_le_total (a b : Signal) :
    (signal_le a b || signal_le b a) = true := by
  simp only [signal_le, Bool.or_eq_true, decide_eq_true_eq,
    Bool.and_eq_true, beq_iff_eq]
  rcases lt_trichotomy a.days_ago b.days_ago with h | h | h
  · exact Or.inl (Or.inl h)
  · rcases le_total a.test_win_rate b.test_win_rate with h2 | h2
    · exact Or.inr (Or.inr ⟨h.symm, h2⟩)
    · exact Or.inl (Or.inr ⟨h, h2⟩)
  · exact Or.inr (Or.inl h)

/-- Equal lists are permutations of one another. -/
theorem perm_of_eq {α : Type} {a b : List α} (h : a = b) : a.Perm b :=
  h ▸ List.Perm.refl a

/-- C7: `check_signals` emits exactly one signal per matching
(bar, catalog-pattern) pair over the most recent `lookback_days` bars
(inclusive of the last bar — the scanned suffix has `min lookback_days
(len df)` bars), and returns them sorted by `days_ago` ascending with ties
broken by descending `test_win_rate`. -/
theorem check_signals_spec (df : List Row) (lookback_days : ℕ) :
    (check_signals df lookback_days).Perm (spec_recent_signals df lookback_days) ∧
    List.Sorted (fun s t : Signal => s.days_ago < t.days_ago ∨
      (s.days_ago = t.days_ago ∧ t.test_win_rate ≤ s.test_win_rate))
      (check_signals df lookback_days) ∧
    (df.drop (df.length - lookback_days)).length = min lookback_days df.length := by
  refine ⟨?_, ?_, ?_⟩
  · simp only [check_signals]
    refine (List.mergeSort_perm _ _).trans (perm_of_eq ?_)
    rw [index_flatMap_eq df _ _ (df.length - lookback_days) rfl]
    simp only [spec_recent_signals, List.length_drop]
    congr 1
    funext jr
    congr 1
    funext p
    by_cases hchk : p.check jr.2 = true
    · simp only [if_pos hchk, Option.some.injEq, Signal.mk.injEq,
        eq_self_iff_true, and_true, true_and]
      omega
    · simp only [if_neg hchk]
  · simp only [check_signals]
    refine List.Pairwise.imp ?_
      (List.sorted_mergeSort signal_le_trans signal_le_total _)
    intro a b h
    simpa [signal_le, Bool.or_eq_true, decide_eq_true_eq,
      Bool.and_eq_true, beq_iff_eq] using h
  · rw [List.length_drop]
    omega

end AutoStock
